import Mathlib

/-!
# Verification of the ucware-llm-api pipeline core

Shallow embedding of the LangGraph pipeline code of this repository:

* `app/utils/segment.py`           — order-preserving semantic segmentation,
* `app/service/chat_graph_builder.py`    — the Chat pipeline (state, steps, routers, retry),
* `app/service/summary_graph_builder.py` — the Summary/RAG pipeline (state, steps, routers, retry),
* `app/service/chat_summary_graph.py`    — the Chat result view.

External collaborators (LLM, vector store, cache, web search, PDF loader) are
modelled as oracle records: each `llm.execute(PROMPT_X.render(...))` call site
becomes an oracle function receiving exactly the render arguments of that call
site.  Python string helpers (`str.upper`, `str.strip`, the `in` substring
test, truthiness of `Optional` values) are modelled by executable functions
below.  All wrapped step functions in the source mutate their state argument
and return it, so the retry wrappers are modelled by threading the returned
state.
-/

namespace UcwareLlm

/-- Model of Python's `str.upper()` (character-wise uppercase). -/
def pyUpper (s : String) : String := ⟨s.data.map Char.toUpper⟩

/-- Model of Python's `str.strip()` (drop whitespace at both ends). -/
def pyStrip (s : String) : String :=
  ⟨((s.data.dropWhile Char.isWhitespace).reverse.dropWhile Char.isWhitespace).reverse⟩

/-- Model of Python's `str.lower()` (character-wise lowercase). -/
def pyLower (s : String) : String := ⟨s.data.map Char.toLower⟩

/-- `isPrefixChars pat l` : does `l` start with `pat`? -/
def isPrefixChars : List Char → List Char → Bool
  | [], _ => true
  | _ :: _, [] => false
  | a :: as, b :: bs => a == b && isPrefixChars as bs

/-- `isSubChars pat l` : does `pat` occur contiguously inside `l`? -/
def isSubChars (pat : List Char) : List Char → Bool
  | [] => pat.isEmpty
  | c :: rest => isPrefixChars pat (c :: rest) || isSubChars pat rest

/-- Model of Python's `pat in s` substring test. -/
def containsStr (s pat : String) : Bool := isSubChars pat.data s.data

/-- Truthiness of a Python `Optional[str]` value (`None` and `""` are falsy). -/
def errSet (o : Option String) : Bool := o.getD "" != ""

/-- Truthiness of a Python `Optional[bool]` value (`None` is falsy). -/
def optTrue (o : Option Bool) : Bool := o.getD false

/-- Truthiness of a Python `Optional[list]` is false iff `None` or empty. -/
def optListEmpty (o : Option (List String)) : Bool := (o.getD []).isEmpty

/- ------------------------------------------------------------------------
   app/utils/segment.py
   ------------------------------------------------------------------------ -/

/-- `app/domain/page_chunk.py`, dataclass `PageChunk`. -/
structure PageChunk where
  page : ℤ
  text : String
  figs : List String := []
  id : String := ""
deriving DecidableEq

/-- Cosine similarity of two vectors (`1 - scipy.spatial.distance.cosine`):
`⟪u,v⟫ / (‖u‖‖v‖)`.  Division by zero yields `0` in Lean. -/
noncomputable def cosSim {E : Type} [NormedAddCommGroup E] [InnerProductSpace ℝ E]
    (u v : E) : ℝ := (inner u v : ℝ) / (‖u‖ * ‖v‖)

/-- `scipy.spatial.distance.cosine u v = 1 - cos(u,v)` as used on line 36 of
`segment.py` (`sim = 1 - cosine(centroid, v)`). -/
noncomputable def scipyCosine {E : Type} [NormedAddCommGroup E] [InnerProductSpace ℝ E]
    (u v : E) : ℝ := 1 - cosSim u v

variable {E : Type} [NormedAddCommGroup E] [InnerProductSpace ℝ E]

open Classical in
/-- The `for ck, v in zip(chunks[1:], vecs[1:])` loop of `segment_in_order`
(`segment.py` lines 34–48).  The accumulator is the current
`(cur_pages, cur_chunks, centroid)` triple; finished segments are emitted in
order.  `np.mean(np.vstack([centroid, v]), axis=0)` is the two-point average
`(centroid + v) / 2`. -/
noncomputable def segLoop (t : ℝ) (g : ℤ) :
    List (PageChunk × E) → List ℤ × List PageChunk × E →
    List (List ℤ × List PageChunk × E)
  | [], acc => [acc]
  | (ck, v) :: rest, (pages, cks, c) =>
    let gap : ℤ := ck.page - pages.getLastD 0
    let sim : ℝ := 1 - scipyCosine c v
    if t ≤ sim ∧ gap ≤ g then
      segLoop t g rest (pages ++ [ck.page], cks ++ [ck], (2 : ℝ)⁻¹ • (c + v))
    else
      (pages, cks, c) :: segLoop t g rest ([ck.page], [ck], v)

/-- `segment_in_order` (`segment.py` lines 15–49).  `embed` is `embed_fn`,
applied to `c.text`; `t` is `sim_threshold` (default `0.78`), `g` is
`max_gap_pages` (default `1`). -/
noncomputable def segment_in_order (chunks : List PageChunk) (embed : String → E)
    (t : ℝ) (g : ℤ) : List (List ℤ × List PageChunk) :=
  match chunks with
  | [] => []
  | c0 :: rest =>
    (segLoop t g (rest.map fun c => (c, embed c.text))
        ([c0.page], [c0], embed c0.text)).map fun s => (s.1, s.2.1)

/-- Bool-valued "every consecutive difference is at most `g`" over a list. -/
def gapLeB (g : ℤ) : List ℤ → Bool
  | [] => true
  | [_] => true
  | a :: b :: rest => decide (b - a ≤ g) && gapLeB g (b :: rest)

/- ------------------------------------------------------------------------
   app/service/chat_graph_builder.py
   ------------------------------------------------------------------------ -/

/-- `chat_graph_builder.py`, pydantic model `ChatState` (lines 10–21). -/
structure ChatState where
  messages : List String
  query : String
  lang : String := "ko"
  summary : Option String := none
  answer : Option String := none
  is_summary : Bool := false
  error : Option String := none
  log : List String := []
  need_refine : Bool := false
deriving DecidableEq

/-- Oracles for the external calls made by the Chat pipeline.  Each llm call
site passes the arguments that `str.format` would substitute into its prompt
(`None` answers are kept as `Option`). -/
structure ChatEnv where
  summarizeLlm : List String → String
  answerLlm : String → List String → String
  verifyLlm : String → List String → Option String → String
  refineLlm : String → List String → Option String → String
  translateLlm : String → Option String → String

/-- `safe_retry` of `chat_graph_builder.py` (lines 24–36), one attempt per
recursion step.  `fn i st` returns the state after the attempt's mutations
together with `some e` when the attempt raised exception message `e`.
First argument after `fn`: remaining attempts (counting the current one);
second: the 1-based attempt index `i`. -/
def safeRetryChatGo (name : String) (fn : Nat → ChatState → ChatState × Option String) :
    Nat → Nat → ChatState → ChatState
  | 0, _, st => st
  | rem + 1, i, st =>
    let st1 := {st with log := st.log ++ [name ++ ":" ++ toString i]}
    match fn i st1 with
    | (st2, none) => st2
    | (st2, some e) =>
      match rem with
      | 0 => {st2 with error := some (name ++ " failed: " ++ e)}
      | rem' + 1 => safeRetryChatGo name fn (rem' + 1) (i + 1) st2

/-- `safe_retry` of the Chat pipeline: `_RETRY = 3` attempts starting at 1. -/
def safe_retry_chat (name : String) (fn : Nat → ChatState → ChatState × Option String)
    (st : ChatState) : ChatState :=
  safeRetryChatGo name fn 3 1 st

/-- A `safe_retry`-wrapped step on its first-attempt success path: the log
entry `"<name>:1"` is appended before the body runs. -/
def wrapOk1Chat (name : String) (body : ChatState → ChatState) (st : ChatState) : ChatState :=
  body {st with log := st.log ++ [name ++ ":1"]}

namespace Chat

/-- Fixed message set by `verify` on a `bad` classification (line 88). -/
def badMsg : String :=
  "I'm sorry, I don't know the answer to that question because it's not related to the chat history. Please try again."

/-- `entry` (lines 45–47): flags summarize-all mode. -/
def entry (st : ChatState) : ChatState :=
  {st with is_summary := pyUpper (pyStrip st.query) == "SUMMARY_ALL"}

/-- `summarize` body (lines 51–53). -/
def summarize (env : ChatEnv) (st : ChatState) : ChatState :=
  {st with summary := some (env.summarizeLlm st.messages)}

/-- `answer` body (lines 57–67). -/
def answer (env : ChatEnv) (st : ChatState) : ChatState :=
  {st with answer := some (env.answerLlm st.query st.messages)}

/-- `verify` body (lines 71–94): logs the classification, then `bad` sets the
fixed message (note: `need_refine` is left unchanged on this branch),
`true` clears `need_refine`, anything else sets it. -/
def verify (env : ChatEnv) (st : ChatState) : ChatState :=
  let result := env.verifyLlm st.query st.messages st.answer
  let st1 := {st with log := st.log ++ ["answer: " ++ result]}
  if containsStr (pyLower result) "bad" then {st1 with answer := some badMsg}
  else if containsStr (pyLower result) "true" then {st1 with need_refine := false}
  else {st1 with need_refine := true}

/-- Conditional router `post_verify` (lines 97–100). -/
def post_verify (st : ChatState) : String :=
  if errSet st.error then "finish"
  else if st.need_refine then "refine" else "translate"

/-- `refine` body (lines 106–117). -/
def refine (env : ChatEnv) (st : ChatState) : ChatState :=
  {st with answer := some (env.refineLlm st.query st.messages st.answer)}

/-- Conditional router `post_refine` (lines 120–123). -/
def post_refine (st : ChatState) : String :=
  if errSet st.error then "finish" else "verify"

/-- `translate` (lines 128–144; not wrapped in `safe_retry`). -/
def translate (env : ChatEnv) (st : ChatState) : ChatState :=
  let text := if st.is_summary then st.summary else st.answer
  let translated := env.translateLlm st.lang text
  if st.is_summary then {st with summary := some translated}
  else {st with answer := some translated}

end Chat

/-- One node execution of the compiled Chat graph on the all-attempts-succeed
path (`summarize`, `answer`, `verify`, `refine` are `safe_retry`-wrapped;
`entry`, `translate`, `finish` are not). -/
def chatStepRun (env : ChatEnv) : String → ChatState → ChatState
  | "entry", st => Chat.entry st
  | "summarize", st => wrapOk1Chat "summarize" (Chat.summarize env) st
  | "answer", st => wrapOk1Chat "answer" (Chat.answer env) st
  | "verify", st => wrapOk1Chat "verify" (Chat.verify env) st
  | "refine", st => wrapOk1Chat "refine" (Chat.refine env) st
  | "translate", st => Chat.translate env st
  | _, st => st

/-- Successor node of the compiled Chat graph (`build`, lines 102–160):
the conditional edge out of `entry`, the routers `post_verify`/`post_refine`,
and the unconditional edges. -/
def chatNext : String → ChatState → Option String
  | "entry", st => some (if st.is_summary then "summarize" else "answer")
  | "summarize", _ => some "translate"
  | "answer", _ => some "verify"
  | "verify", st => some (Chat.post_verify st)
  | "refine", st => some (Chat.post_refine st)
  | "translate", _ => some "finish"
  | _, _ => none

/-- Fuel-bounded executor of the Chat graph returning the final state and the
ordered list of executed nodes (the fuel models LangGraph's recursion
ceiling). -/
def chatRun (env : ChatEnv) : Nat → String → ChatState → ChatState × List String
  | 0, _, st => (st, [])
  | fuel + 1, node, st =>
    let st1 := chatStepRun env node st
    match chatNext node st1 with
    | none => (st1, [node])
    | some nxt =>
      let r := chatRun env fuel nxt st1
      (r.1, node :: r.2)

/-- `ChatSummaryGraph.generate`'s initial state (`chat_summary_graph.py`
lines 15–17) and graph invocation with `fuel` transitions available. -/
def chat_run (env : ChatEnv) (fuel : Nat) (messages : List String)
    (query lang : String) : ChatState × List String :=
  chatRun env fuel "entry" {messages := messages, query := query, lang := lang}

/-- The response body built by `ChatSummaryGraph.generate`
(`chat_summary_graph.py` lines 18–28): a dict with `log` plus exactly one of
`error`, `summary`, `answer`. -/
structure ChatResult where
  log : List String
  error : Option String := none
  summary : Option String := none
  answer : Option String := none
deriving DecidableEq

/-- `ChatSummaryGraph.generate`, body construction (lines 18–28). -/
def generateResult (st : ChatState) : ChatResult :=
  if errSet st.error then {log := st.log, error := st.error}
  else if st.is_summary then {log := st.log, summary := st.summary}
  else {log := st.log, answer := st.answer}

/- ------------------------------------------------------------------------
   app/service/summary_graph_builder.py
   ------------------------------------------------------------------------ -/

/-- `summary_graph_builder.py`, pydantic model `SummaryState` (lines 38–59).
`TextChunk` (from `app/domain/interfaces.py`, which is not among the given
sources) is modelled as `String`, matching the spec's opaque text chunks.
`refine_count` is only ever incremented from `0`, so `Nat` is faithful. -/
structure SummaryState where
  file_id : String
  url : String
  query : String
  lang : String
  chunks : Option (List String) := none
  retrieved : Option (List String) := none
  summary : Option String := none
  answer : Option String := none
  log : List String := []
  cached : Bool := false
  embedded : Bool := false
  is_summary : Bool := false
  error : Option String := none
  is_web : Option Bool := none
  is_good : Option Bool := none
  refine_count : Nat := 0
deriving DecidableEq

/-- Oracles for the external calls made by the Summary pipeline.  Each
`llm.execute(PROMPT_X.render(...))` call site becomes one oracle receiving
exactly the render arguments; store/cache calls receive their Python
arguments.  `elapsedMs` models the measured per-step elapsed time that the
retry wrapper logs. -/
structure SummaryEnv where
  existsSummary : String → Bool
  getSummary : String → Option String
  hasChunks : String → Bool
  loadPdf : String → List String
  getAll : String → List String
  webSearch : String → Nat → List String
  vectorSearch : String → String → Nat → List String
  summarizeLlm : List String → String
  determineWebLlm : String → Option String → String
  gradeLlm : String → Option String → String → String
  generateLlm : String → Option (List String) → String
  verifyLlm : String → Option String → Option (List String) → Option String → String
  refineLlm : Option String → String → Option (List String) → Option String → String
  translateLlm : String → Option String → String
  elapsedMs : String → Nat

/-- `safe_retry` of `summary_graph_builder.py` (lines 68–89), one attempt per
recursion step.  Unlike the Chat variant, the log entry is appended only
after a successful attempt (`f"{fn.__name__} attempt {attempt} [{elapsed}ms]"`),
and the final-failure error message is
`f"{fn.__name__} failed after {_RETRY} tries: {exc}"` with `_RETRY = 3`. -/
def safeRetrySummaryGo (name : String) (elapsed : Nat → Nat)
    (fn : Nat → SummaryState → SummaryState × Option String) :
    Nat → Nat → SummaryState → SummaryState
  | 0, _, st => st
  | rem + 1, attempt, st =>
    match fn attempt st with
    | (st2, none) =>
      {st2 with log := st2.log ++
        [name ++ " attempt " ++ toString attempt ++ " [" ++ toString (elapsed attempt) ++ "ms]"]}
    | (st2, some e) =>
      match rem with
      | 0 => {st2 with error := some (name ++ " failed after 3 tries: " ++ e)}
      | rem' + 1 => safeRetrySummaryGo name elapsed fn (rem' + 1) (attempt + 1) st2

/-- `safe_retry` of the Summary pipeline: `_RETRY = 3` attempts starting at 1. -/
def safe_retry_summary (name : String) (elapsed : Nat → Nat)
    (fn : Nat → SummaryState → SummaryState × Option String)
    (st : SummaryState) : SummaryState :=
  safeRetrySummaryGo name elapsed fn 3 1 st

/-- A `safe_retry`-wrapped Summary step on its first-attempt success path:
the body runs, then the attempt log entry is appended. -/
def wrapOk1Summary (name : String) (ems : Nat) (body : SummaryState → SummaryState)
    (st : SummaryState) : SummaryState :=
  let st1 := body st
  {st1 with log := st1.log ++ [name ++ " attempt 1 [" ++ toString ems ++ "ms]"]}

namespace Summary

/-- Fixed fallback message used by `grade` (line 268) and `refine` (line 345). -/
def cantFindMsg : String :=
  "I'm sorry, I can't find the answer to your question even though I read all the documents. Please ask a question about the document's content."

/-- `entry_router` body (lines 112–126); the external `set_log` side effect
has no state effect and is omitted. -/
def entry_router (env : SummaryEnv) (st : SummaryState) : SummaryState :=
  let st1 := {st with is_summary := pyUpper (pyStrip st.query) == "SUMMARY_ALL"}
  let st2 := {st1 with cached := env.existsSummary st1.file_id}
  let st3 := if st2.cached then {st2 with summary := env.getSummary st2.file_id} else st2
  {st3 with embedded := env.hasChunks st3.file_id}

/-- Conditional router `entry_branch` (lines 128–135). -/
def entry_branch (st : SummaryState) : String :=
  if errSet st.error then "finish"
  else if st.is_summary then
    if st.cached then "translate"
    else if st.embedded then "RAG_router" else "load"
  else if st.embedded then "RAG_router" else "load"

/-- `load_pdf` body (lines 141–143). -/
def load_pdf (env : SummaryEnv) (st : SummaryState) : SummaryState :=
  {st with chunks := some (env.loadPdf st.url)}

/-- Conditional router `post_load` (lines 430–431). -/
def post_load (st : SummaryState) : String :=
  if errSet st.error then "finish" else "embed"

/-- `embed` body (lines 149–155) on the success path (`chunks ≠ None`): the
upsert is external; only the `embedded` flag changes. -/
def embed (st : SummaryState) : SummaryState :=
  if st.embedded then st else {st with embedded := true}

/-- Conditional router `post_embed` (lines 438–439). -/
def post_embed (st : SummaryState) : String :=
  if errSet st.error then "finish" else "RAG_router"

/-- `summarize` body (lines 161–166). -/
def summarize (env : SummaryEnv) (st : SummaryState) : SummaryState :=
  let st1 := match st.chunks with
    | none => {st with chunks := some (env.getAll st.file_id)}
    | some _ => st
  let s := env.summarizeLlm (st1.chunks.getD [])
  {st1 with summary := some s, log := st1.log ++ ["summarize: " ++ s]}

/-- `RAG_router` body (lines 172–187). -/
def RAG_router (env : SummaryEnv) (st : SummaryState) : SummaryState :=
  if st.is_summary then st
  else
    let st1 :=
      if st.cached then {st with summary := env.getSummary st.file_id}
      else
        let ch := env.getAll st.file_id
        {st with chunks := some ch, summary := some (env.summarizeLlm ch)}
    let result := env.determineWebLlm st1.query st1.summary
    {st1 with log := st1.log ++ ["RAG_router: " ++ result],
              is_web := some (containsStr (pyLower result) "true")}

/-- Conditional router `post_RAG_router` (lines 191–196). -/
def post_RAG_router (st : SummaryState) : String :=
  if errSet st.error then "finish"
  else if st.is_summary then "summarize"
  else if optTrue st.is_web then "retrieve_web" else "retrieve_vector"

/-- `retrieve_web` body (lines 207–217): vector results are concatenated
before web results; the joined result list is logged via Python `repr`,
modelled by `toString`. -/
def retrieve_web (env : SummaryEnv) (st : SummaryState) : SummaryState :=
  let search_result := env.webSearch st.query 5
  let vector_result := env.vectorSearch st.file_id st.query 3
  {st with retrieved := some (vector_result ++ search_result),
           log := st.log ++ ["search_result: " ++ toString search_result]}

/-- Conditional router `post_retrieve_web` (lines 221–225). -/
def post_retrieve_web (st : SummaryState) : String :=
  if errSet st.error then "finish" else "grade"

/-- `retrieve_vector` body (lines 228–230). -/
def retrieve_vector (env : SummaryEnv) (st : SummaryState) : SummaryState :=
  {st with retrieved := some (env.vectorSearch st.file_id st.query 8)}

/-- Conditional router `post_retrieve_vector` (lines 232–236). -/
def post_retrieve_vector (st : SummaryState) : String :=
  if errSet st.error then "finish" else "grade"

/-- `grade` body (lines 251–271): empty/`None` retrieval sets
`error = "No relevant chunks"` (the answer is untouched); otherwise each
candidate is graded, every grading result is logged, and an all-`no` outcome
sets the fixed fallback answer. -/
def grade (env : SummaryEnv) (st : SummaryState) : SummaryState :=
  if optListEmpty st.retrieved then {st with error := some "No relevant chunks"}
  else
    let l := st.retrieved.getD []
    let entries := l.map fun c => "grade: " ++ env.gradeLlm st.query st.summary c
    let st1 := {st with log := st.log ++ entries}
    let good := l.filter fun c => containsStr (pyLower (env.gradeLlm st.query st.summary c)) "yes"
    if good.isEmpty then {st1 with answer := some cantFindMsg}
    else {st1 with retrieved := some good}

/-- Conditional router `post_grade` (lines 275–281): the fallback-answer
check precedes the error check. -/
def post_grade (st : SummaryState) : String :=
  if st.answer = some cantFindMsg then "translate"
  else if errSet st.error then "finish"
  else "generate"

/-- `generate` body (lines 290–294). -/
def generate (env : SummaryEnv) (st : SummaryState) : SummaryState :=
  let ans := env.generateLlm st.query st.retrieved
  {st with answer := some ans, log := st.log ++ ["generate: " ++ ans]}

/-- Conditional router `post_generate` (lines 298–299). -/
def post_generate (st : SummaryState) : String :=
  if errSet st.error then "finish" else "verify"

/-- `verify` body (lines 307–323). -/
def verify (env : SummaryEnv) (st : SummaryState) : SummaryState :=
  let result := env.verifyLlm st.query st.summary st.retrieved st.answer
  {st with log := st.log ++ ["verify: " ++ result],
           is_good := some (containsStr (pyLower result) "good")}

/-- Conditional router `post_verify` (lines 327–332). -/
def post_verify (st : SummaryState) : String :=
  if errSet st.error then "finish"
  else if !optTrue st.is_good then "refine"
  else if st.is_summary then "save" else "translate"

/-- `refine` body (lines 342–362): the counter is incremented first; past the
bound of 3 the fixed fallback message is set and the model is *not* called;
otherwise the model either returns the "not related" apology (kept as the
answer) or a refined query. -/
def refine (env : SummaryEnv) (st : SummaryState) : SummaryState :=
  let st1 := {st with refine_count := st.refine_count + 1}
  if st1.refine_count > 3 then {st1 with answer := some cantFindMsg}
  else
    let result := env.refineLlm st1.summary st1.query st1.retrieved st1.answer
    let st2 := {st1 with log := st1.log ++ ["refine: " ++ result]}
    if containsStr result "not related to the document content" then
      {st2 with answer := some result}
    else {st2 with query := result}

/-- Number of `llm.execute` calls performed by one invocation of `refine`:
the call on line 354 is guarded by `refine_count + 1 ≤ 3` (lines 343–346). -/
def refineLlmCalls (st : SummaryState) : Nat :=
  if st.refine_count + 1 > 3 then 0 else 1

/-- Conditional router `post_refine` (lines 366–372).  Python evaluates
`"not related to the document content" in st.answer`, which raises
`TypeError` when `answer` is `None`; that crash is modelled as `none`. -/
def post_refine (st : SummaryState) : Option String :=
  if errSet st.error then some "finish"
  else match st.answer with
    | none => none
    | some a =>
      if containsStr a "not related to the document content" ∨ st.refine_count > 3 then
        some "translate"
      else some "RAG_router"

/-- `save_summary` body (lines 381–384): the cache write is external; the
state is unchanged. -/
def save_summary (st : SummaryState) : SummaryState := st

/-- Conditional router `post_save_summary` (lines 388–389). -/
def post_save_summary (st : SummaryState) : String :=
  if errSet st.error then "finish" else "translate"

/-- `translate` body (lines 392–402): in summarize-all mode the text comes
from `cache.get_summary`, otherwise from `answer`; the translation is always
written to `answer`. -/
def translate (env : SummaryEnv) (st : SummaryState) : SummaryState :=
  let text := if st.is_summary then env.getSummary st.file_id else st.answer
  let ans := env.translateLlm st.lang text
  {st with answer := some ans, log := st.log ++ ["translate: " ++ ans]}

end Summary

/- ------------------------------------------------------------------------
   Concrete environments and states used in closed runs and witnesses
   ------------------------------------------------------------------------ -/

/-- A trivial Summary environment whose grader always answers `"no"`. -/
def tEnv : SummaryEnv where
  existsSummary := fun _ => false
  getSummary := fun _ => none
  hasChunks := fun _ => false
  loadPdf := fun _ => []
  getAll := fun _ => []
  webSearch := fun _ _ => []
  vectorSearch := fun _ _ _ => []
  summarizeLlm := fun _ => "s"
  determineWebLlm := fun _ _ => "false"
  gradeLlm := fun _ _ _ => "no"
  generateLlm := fun _ _ => "g"
  verifyLlm := fun _ _ _ _ => "good"
  refineLlm := fun _ _ _ _ => "r"
  translateLlm := fun _ _ => "t"
  elapsedMs := fun _ => 0

/-- Environment driving the Summary pipeline into a run that reaches
`post_grade` with `error` set *and* the fallback answer in place: the
first retrieval returns one chunk, the generation oracle returns exactly the
fallback text, verification says `bad`, and the re-retrieval with the refined
query `"rq"` comes back empty. -/
def c2Env : SummaryEnv where
  existsSummary := fun _ => true
  getSummary := fun _ => some "S"
  hasChunks := fun _ => true
  loadPdf := fun _ => []
  getAll := fun _ => []
  webSearch := fun _ _ => []
  vectorSearch := fun _ q _ => if q = "q0" then ["c1"] else []
  summarizeLlm := fun _ => "SUM"
  determineWebLlm := fun _ _ => "false"
  gradeLlm := fun _ _ _ => "yes"
  generateLlm := fun _ _ => Summary.cantFindMsg
  verifyLlm := fun _ _ _ _ => "bad"
  refineLlm := fun _ _ _ _ => "rq"
  translateLlm := fun _ _ => "T"
  elapsedMs := fun _ => 0

/-- Initial state of the C2 counterexample run. -/
def c2State0 : SummaryState := {file_id := "f", url := "u", query := "q0", lang := "ko"}

/-- C2 run, after `entry` (wrapped nodes follow the first-attempt success path). -/
def c2s1 : SummaryState := wrapOk1Summary "entry_router" 0 (Summary.entry_router c2Env) c2State0

/-- C2 run, after the first `RAG_router`. -/
def c2s2 : SummaryState := wrapOk1Summary "RAG_router" 0 (Summary.RAG_router c2Env) c2s1

/-- C2 run, after the first `retrieve_vector`. -/
def c2s3 : SummaryState := wrapOk1Summary "retrieve_vector" 0 (Summary.retrieve_vector c2Env) c2s2

/-- C2 run, after the first `grade`. -/
def c2s4 : SummaryState := wrapOk1Summary "grade" 0 (Summary.grade c2Env) c2s3

/-- C2 run, after `generate` (the oracle returns the fallback text). -/
def c2s5 : SummaryState := wrapOk1Summary "generate" 0 (Summary.generate c2Env) c2s4

/-- C2 run, after `verify` (graded `bad`). -/
def c2s6 : SummaryState := wrapOk1Summary "verify" 0 (Summary.verify c2Env) c2s5

/-- C2 run, after `refine` (query refined to `"rq"`). -/
def c2s7 : SummaryState := wrapOk1Summary "refine" 0 (Summary.refine c2Env) c2s6

/-- C2 run, after the second `RAG_router`. -/
def c2s8 : SummaryState := wrapOk1Summary "RAG_router" 0 (Summary.RAG_router c2Env) c2s7

/-- C2 run, after the second `retrieve_vector` (now empty). -/
def c2s9 : SummaryState := wrapOk1Summary "retrieve_vector" 0 (Summary.retrieve_vector c2Env) c2s8

/-- C2 run, after the second `grade`: `error` is set while `answer` still
holds the fallback text. -/
def c2s10 : SummaryState := wrapOk1Summary "grade" 0 (Summary.grade c2Env) c2s9

/-- Concrete Summary state with `error` set, for router witnesses. -/
def errStateS : SummaryState :=
  {file_id := "f", url := "u", query := "q", lang := "l", error := some "boom"}

/-- Concrete Chat state with `error` set, for router witnesses. -/
def errStateC : ChatState := {messages := [], query := "q", error := some "boom"}

/-- C3 witness states: refine entered with counter `i`. -/
def c3s (i : Nat) : SummaryState :=
  {file_id := "f", url := "u", query := "q", lang := "l", refine_count := i,
   answer := some "g"}

/-- Concrete Summary state whose retrieval list is empty (C4). -/
def c4StEmpty : SummaryState :=
  {file_id := "f", url := "u", query := "q", lang := "l", retrieved := some []}

/-- Concrete Summary state with one retrieved candidate (C4, all-`no`). -/
def c4StNo : SummaryState :=
  {file_id := "f", url := "u", query := "q", lang := "l", retrieved := some ["c"]}

/-- Step behaviour failing on attempts 1–2 and succeeding on attempt 3 (C5). -/
def failTwiceS : Nat → SummaryState → SummaryState × Option String :=
  fun i s => if i = 3 then (s, none) else (s, some "boom")

/-- Chat variant of `failTwiceS`. -/
def failTwiceC : Nat → ChatState → ChatState × Option String :=
  fun i s => if i = 3 then (s, none) else (s, some "boom")

/-- Step behaviour failing on every attempt (C6). -/
def failAlwaysS : Nat → SummaryState → SummaryState × Option String :=
  fun _ s => (s, some "boom")

/-- Chat variant of `failAlwaysS`. -/
def failAlwaysC : Nat → ChatState → ChatState × Option String :=
  fun _ s => (s, some "boom")

/-- Plain Summary state used by the retry theorems. -/
def plainS : SummaryState := {file_id := "f", url := "u", query := "q", lang := "l"}

/-- Plain Chat state used by the retry theorems. -/
def plainC : ChatState := {messages := [], query := "q"}

/-- Chat environment for the C7 run: the verifier classifies the first
answer `"A1"` as `false` and everything else (in particular the refined
answer `"A2"`) as `bad`. -/
def c7Env : ChatEnv where
  summarizeLlm := fun _ => "S"
  answerLlm := fun _ _ => "A1"
  verifyLlm := fun _ _ a => if a = some "A1" then "false" else "bad"
  refineLlm := fun _ _ _ => "A2"
  translateLlm := fun _ _ => "T"

/-- Initial state of the C7 run. -/
def c7s0 : ChatState := {messages := ["m"], query := "q"}

/-- C7 run, after `entry`. -/
def c7s1 : ChatState := Chat.entry c7s0

/-- C7 run, after `answer`. -/
def c7s2 : ChatState := wrapOk1Chat "answer" (Chat.answer c7Env) c7s1

/-- C7 run, after the first `verify` (classified `false`, so `need_refine`). -/
def c7s3 : ChatState := wrapOk1Chat "verify" (Chat.verify c7Env) c7s2

/-- C7 run, after `refine`. -/
def c7s4 : ChatState := wrapOk1Chat "refine" (Chat.refine c7Env) c7s3

/-- C7 run, after the second `verify` (classified `bad`). -/
def c7s5 : ChatState := wrapOk1Chat "verify" (Chat.verify c7Env) c7s4

/-- A trivial Chat environment (C8 witness). -/
def w8Env : ChatEnv where
  summarizeLlm := fun _ => "S"
  answerLlm := fun _ _ => "A"
  verifyLlm := fun _ _ _ => "true"
  refineLlm := fun _ _ _ => "R"
  translateLlm := fun _ _ => "T"

/- ------------------------------------------------------------------------
   Theorems
   ------------------------------------------------------------------------ -/

lemma segLoop_chunks_join (t : ℝ) (g : ℤ) :
    ∀ (l : List (PageChunk × E)) (pages : List ℤ) (cks : List PageChunk) (c : E),
      ((segLoop t g l (pages, cks, c)).map (fun s => s.2.1)).flatten
        = cks ++ l.map (fun p => p.1) := by
  intro l
  induction l with
  | nil => intro pages cks c; simp [segLoop]
  | cons hd rest ih =>
    intro pages cks c
    obtain ⟨ck, v⟩ := hd
    simp only [segLoop]
    split
    · rw [ih]
      simp
    · simp only [List.map_cons, List.flatten_cons, ih]
      simp

/-- C1: for every input list of chunks and every embedding function,
concatenating the chunk lists of the segments returned by `segment_in_order`,
in segment order, yields exactly the input chunk list — no chunk is
reordered, dropped, or duplicated. -/
theorem segment_in_order_concat_eq (chunks : List PageChunk) (embed : String → E)
    (t : ℝ) (g : ℤ) :
    ((segment_in_order chunks embed t g).map (fun s => s.2)).flatten = chunks := by
  cases chunks with
  | nil => simp [segment_in_order]
  | cons c0 rest =>
    simp only [segment_in_order, List.map_map]
    have h := segLoop_chunks_join (E := E) t g (rest.map fun c => (c, embed c.text))
      [c0.page] [c0] (embed c0.text)
    simp only [List.map_map] at h ⊢
    have hcomp :
        ((fun s : List ℤ × List PageChunk => s.2) ∘ fun s : List ℤ × List PageChunk × E => (s.1, s.2.1))
          = fun s : List ℤ × List PageChunk × E => s.2.1 := rfl
    rw [hcomp, h]
    simp [Function.comp_def]

lemma cosSim_smul_left_pos {r : ℝ} (hr : 0 < r) (u v : E) :
    cosSim (r • u) v = cosSim u v := by
  unfold cosSim
  rw [real_inner_smul_left, norm_smul, Real.norm_eq_abs, abs_of_pos hr, mul_assoc]
  exact mul_div_mul_left _ _ (ne_of_gt hr)

lemma cosSim_self_eq_one {v : E} (hv : v ≠ 0) : cosSim v v = 1 := by
  have h : ‖v‖ ≠ 0 := norm_ne_zero_iff.mpr hv
  unfold cosSim
  rw [real_inner_self_eq_norm_mul_norm]
  field_simp

lemma cosSim_zero_left (v : E) : cosSim (0 : E) v = 0 := by simp [cosSim]

/-- Averaging two vectors that are both `t`-similar to `w` keeps the
similarity to `w` at least `t` (for `t > 0`); moreover the sum is nonzero. -/
lemma cosSim_add_ge {a b w : E} {t : ℝ} (ht : 0 < t)
    (ha : a ≠ 0) (hb : b ≠ 0) (hw : w ≠ 0)
    (haw : t ≤ cosSim a w) (hbw : t ≤ cosSim b w) :
    a + b ≠ 0 ∧ t ≤ cosSim (a + b) w := by
  have hna : (0:ℝ) < ‖a‖ := norm_pos_iff.mpr ha
  have hnb : (0:ℝ) < ‖b‖ := norm_pos_iff.mpr hb
  have hnw : (0:ℝ) < ‖w‖ := norm_pos_iff.mpr hw
  have h1 : t * (‖a‖ * ‖w‖) ≤ (inner a w : ℝ) := by
    have := (le_div_iff₀ (by positivity : (0:ℝ) < ‖a‖ * ‖w‖)).mp haw
    exact this
  have h2 : t * (‖b‖ * ‖w‖) ≤ (inner b w : ℝ) := by
    have := (le_div_iff₀ (by positivity : (0:ℝ) < ‖b‖ * ‖w‖)).mp hbw
    exact this
  have hsum : t * ((‖a‖ + ‖b‖) * ‖w‖) ≤ (inner (a + b) w : ℝ) := by
    rw [inner_add_left]
    nlinarith
  have hpos : (0:ℝ) < t * ((‖a‖ + ‖b‖) * ‖w‖) := by positivity
  have hipos : (0:ℝ) < (inner (a + b) w : ℝ) := lt_of_lt_of_le hpos hsum
  have habne : a + b ≠ 0 := by
    intro h0
    rw [h0, inner_zero_left] at hipos
    exact lt_irrefl 0 hipos
  refine ⟨habne, ?_⟩
  have hnab : (0:ℝ) < ‖a + b‖ := norm_pos_iff.mpr habne
  rw [cosSim, le_div_iff₀ (by positivity : (0:ℝ) < ‖a + b‖ * ‖w‖)]
  have htri : ‖a + b‖ ≤ ‖a‖ + ‖b‖ := norm_add_le a b
  calc t * (‖a + b‖ * ‖w‖) ≤ t * ((‖a‖ + ‖b‖) * ‖w‖) := by nlinarith
    _ ≤ (inner (a + b) w : ℝ) := hsum

lemma gapLeB_cons_cons {g a b : ℤ} {rest : List ℤ}
    (h : gapLeB g (a :: b :: rest) = true) :
    b - a ≤ g ∧ gapLeB g (b :: rest) = true := by
  simpa [gapLeB] using h

/-- Loop invariant for C9: if the centroid is `t`-similar to every upcoming
vector, the upcoming vectors are pairwise `t`-similar, and page gaps stay
within `g`, then the loop never closes the current segment. -/
lemma segLoop_single (t : ℝ) (g : ℤ) (ht : 0 < t) (ht1 : t ≤ 1) :
    ∀ (l : List (PageChunk × E)) (pages : List ℤ) (cks : List PageChunk) (c : E),
      c ≠ 0 →
      (∀ p ∈ l, p.2 ≠ 0) →
      (∀ p ∈ l, t ≤ cosSim c p.2) →
      (∀ p ∈ l, ∀ q ∈ l, t ≤ cosSim p.2 q.2) →
      gapLeB g (pages.getLastD 0 :: l.map (fun p => p.1.page)) = true →
      (segLoop t g l (pages, cks, c)).length = 1 := by
  intro l
  induction l with
  | nil => intros; simp [segLoop]
  | cons hd rest ih =>
    intro pages cks c hc hnz hcos hpair hgap
    obtain ⟨ck, v⟩ := hd
    have hv : v ≠ 0 := hnz (ck, v) (by simp)
    have hcv : t ≤ cosSim c v := hcos (ck, v) (by simp)
    have hsim : t ≤ 1 - scipyCosine c v := by
      unfold scipyCosine
      simpa using hcv
    simp only [List.map_cons] at hgap
    obtain ⟨hgap1, hgaprest⟩ := gapLeB_cons_cons hgap
    simp only [segLoop]
    rw [if_pos ⟨hsim, hgap1⟩]
    have hkey : ∀ w : E, w ≠ 0 → t ≤ cosSim c w → t ≤ cosSim v w →
        c + v ≠ 0 ∧ t ≤ cosSim ((2:ℝ)⁻¹ • (c + v)) w := by
      intro w hw hcw hvw
      have h := cosSim_add_ge ht hc hv hw hcw hvw
      refine ⟨h.1, ?_⟩
      rw [cosSim_smul_left_pos (by norm_num : (0:ℝ) < (2:ℝ)⁻¹)]
      exact h.2
    have hcvne : c + v ≠ 0 :=
      (hkey v hv hcv (by rw [cosSim_self_eq_one hv]; exact ht1)).1
    have hc2ne : (2:ℝ)⁻¹ • (c + v) ≠ 0 := by
      intro h0
      rcases smul_eq_zero.mp h0 with h1 | h2
      · norm_num at h1
      · exact hcvne h2
    apply ih (pages ++ [ck.page]) (cks ++ [ck]) _ hc2ne
    · intro p hp
      exact hnz p (List.mem_cons_of_mem _ hp)
    · intro p hp
      exact (hkey p.2 (hnz p (List.mem_cons_of_mem _ hp))
        (hcos p (List.mem_cons_of_mem _ hp))
        (hpair (ck, v) (by simp) p (List.mem_cons_of_mem _ hp))).2
    · intro p hp q hq
      exact hpair p (List.mem_cons_of_mem _ hp) q (List.mem_cons_of_mem _ hq)
    · rw [List.getLastD_concat]
      exact hgaprest

/-- C9: if every pair of chunk embeddings (the chunk against the running
centroid is what the code actually compares, but pairwise similarity implies
centroid similarity) has cosine similarity at least `0.78` and every
consecutive page gap is at most `1`, `segment_in_order` (at its default
threshold and gap) returns exactly one segment. -/
theorem segment_in_order_single (chunks : List PageChunk) (embed : String → E)
    (hne : chunks ≠ [])
    (hpair : ∀ c1 ∈ chunks, ∀ c2 ∈ chunks,
      (0.78 : ℝ) ≤ cosSim (embed c1.text) (embed c2.text))
    (hgap : gapLeB 1 (chunks.map (fun c => c.page)) = true) :
    (segment_in_order chunks embed 0.78 1).length = 1 := by
  match chunks, hne with
  | c0 :: rest, _ =>
    have hnz : ∀ c ∈ c0 :: rest, embed c.text ≠ (0 : E) := by
      intro c hc h0
      have h := hpair c hc c hc
      rw [h0, cosSim_zero_left] at h
      norm_num at h
    simp only [segment_in_order, List.length_map]
    apply segLoop_single 0.78 1 (by norm_num) (by norm_num)
    · exact hnz c0 (by simp)
    · intro p hp
      obtain ⟨c, hc, rfl⟩ := List.mem_map.mp hp
      exact hnz c (List.mem_cons_of_mem _ hc)
    · intro p hp
      obtain ⟨c, hc, rfl⟩ := List.mem_map.mp hp
      exact hpair c0 (by simp) c (List.mem_cons_of_mem _ hc)
    · intro p hp q hq
      obtain ⟨c, hc, rfl⟩ := List.mem_map.mp hp
      obtain ⟨d, hd, rfl⟩ := List.mem_map.mp hq
      exact hpair c (List.mem_cons_of_mem _ hc) d (List.mem_cons_of_mem _ hd)
    · simp only [List.map_map, List.map_cons] at hgap ⊢
      simpa [Function.comp_def] using hgap

/-- Concrete chunks for the C9 witness. -/
def wChunk1 : PageChunk := {page := 1, text := "a"}

/-- Concrete chunks for the C9 witness. -/
def wChunk2 : PageChunk := {page := 1, text := "b"}

/-- Witness for C9 at a concrete two-chunk input whose embeddings are the
nonzero real number `1` (so all pairwise cosine similarities are `1`). -/
theorem segment_in_order_single_witness :
    (([wChunk1, wChunk2] : List PageChunk) ≠ []) ∧
    (segment_in_order [wChunk1, wChunk2] (fun _ => (1 : ℝ)) 0.78 1).length = 1 := by
  refine ⟨by simp, ?_⟩
  apply segment_in_order_single
  · simp
  · intro c1 _ c2 _
    rw [cosSim_self_eq_one (by norm_num : (1:ℝ) ≠ 0)]
    norm_num
  · decide

/-- C2 (amended): with `error` set, every conditional router of both
pipelines returns the key mapped to `finish`, with the single exception of
the Summary pipeline's `post_grade`, whose fallback-answer check precedes its
error check: it returns `"translate"` when the answer equals the fallback
message even though `error` is set, and `"finish"` otherwise. -/
theorem routers_route_finish_on_error :
    (∀ st : SummaryState, errSet st.error = true →
      Summary.entry_branch st = "finish" ∧
      Summary.post_load st = "finish" ∧
      Summary.post_embed st = "finish" ∧
      Summary.post_RAG_router st = "finish" ∧
      Summary.post_retrieve_web st = "finish" ∧
      Summary.post_retrieve_vector st = "finish" ∧
      Summary.post_generate st = "finish" ∧
      Summary.post_verify st = "finish" ∧
      Summary.post_refine st = some "finish" ∧
      Summary.post_save_summary st = "finish" ∧
      Summary.post_grade st =
        (if st.answer = some Summary.cantFindMsg then "translate" else "finish")) ∧
    (∀ st : ChatState, errSet st.error = true →
      Chat.post_verify st = "finish" ∧ Chat.post_refine st = "finish") := by
  constructor
  · intro st h
    refine ⟨?_, ?_, ?_, ?_, ?_, ?_, ?_, ?_, ?_, ?_, ?_⟩ <;>
      simp [Summary.entry_branch, Summary.post_load, Summary.post_embed,
        Summary.post_RAG_router, Summary.post_retrieve_web, Summary.post_retrieve_vector,
        Summary.post_generate, Summary.post_verify, Summary.post_refine,
        Summary.post_save_summary, Summary.post_grade, h]
  · intro st h
    exact ⟨by simp [Chat.post_verify, h], by simp [Chat.post_refine, h]⟩

/-- Witness for the amended C2 at a concrete state with `error` set. -/
theorem routers_route_finish_on_error_witness :
    errSet errStateS.error = true ∧
    Summary.entry_branch errStateS = "finish" ∧
    Summary.post_refine errStateS = some "finish" ∧
    Chat.post_verify errStateC = "finish" :=
  ⟨by decide,
   (routers_route_finish_on_error.1 errStateS (by decide)).1,
   (routers_route_finish_on_error.1 errStateS (by decide)).2.2.2.2.2.2.2.2.1,
   (routers_route_finish_on_error.2 errStateC (by decide)).1⟩

/-- C2 counterexample: a genuine run of the Summary pipeline (each conjunct
checks the router decision that drives the next composed step) reaches
`post_grade` in a state whose `error` is set, yet `post_grade` returns
`"translate"`, not `"finish"`, because the fallback-answer check comes
first. -/
theorem post_grade_error_not_finish :
    Summary.entry_branch c2s1 = "RAG_router" ∧
    Summary.post_RAG_router c2s2 = "retrieve_vector" ∧
    Summary.post_retrieve_vector c2s3 = "grade" ∧
    Summary.post_grade c2s4 = "generate" ∧
    Summary.post_generate c2s5 = "verify" ∧
    Summary.post_verify c2s6 = "refine" ∧
    Summary.post_refine c2s7 = some "RAG_router" ∧
    Summary.post_RAG_router c2s8 = "retrieve_vector" ∧
    Summary.post_retrieve_vector c2s9 = "grade" ∧
    errSet c2s10.error = true ∧
    Summary.post_grade c2s10 = "translate" ∧
    Summary.post_grade c2s10 ≠ "finish" := by decide

lemma refine_increments (env : SummaryEnv) (s : SummaryState) :
    (Summary.refine env s).refine_count = s.refine_count + 1 := by
  simp only [Summary.refine]
  split
  · rfl
  · split <;> rfl

lemma refine_preserves_error (env : SummaryEnv) (s : SummaryState) :
    (Summary.refine env s).error = s.error := by
  simp only [Summary.refine]
  split
  · rfl
  · split <;> rfl

/-- C3: `refine` always increments `refine_count`; on the fourth consecutive
entry of the refine loop (the counter having reached 3), the answer becomes
the fixed fallback message, the model was called on exactly the first 3
entries, and `post_refine` routes to `"translate"`, not `"RAG_router"`. -/
theorem refine_fourth_entry_falls_back (env : SummaryEnv) (s1 s2 s3 s4 : SummaryState)
    (h1 : s1.refine_count = 0)
    (h2 : s2.refine_count = (Summary.refine env s1).refine_count)
    (h3 : s3.refine_count = (Summary.refine env s2).refine_count)
    (h4 : s4.refine_count = (Summary.refine env s3).refine_count)
    (herr : s4.error = none) :
    (∀ (e : SummaryEnv) (s : SummaryState),
      (Summary.refine e s).refine_count = s.refine_count + 1) ∧
    (Summary.refine env s4).answer = some Summary.cantFindMsg ∧
    (Summary.refine env s4).refine_count = 4 ∧
    Summary.refineLlmCalls s1 + Summary.refineLlmCalls s2 + Summary.refineLlmCalls s3 +
      Summary.refineLlmCalls s4 = 3 ∧
    Summary.post_refine (Summary.refine env s4) = some "translate" := by
  have hc2 : s2.refine_count = 1 := by rw [h2, refine_increments, h1]
  have hc3 : s3.refine_count = 2 := by rw [h3, refine_increments, hc2]
  have hc4 : s4.refine_count = 3 := by rw [h4, refine_increments, hc3]
  have hbr : Summary.refine env s4 =
      {s4 with refine_count := 4, answer := some Summary.cantFindMsg} := by
    unfold Summary.refine
    rw [hc4]
    norm_num
  refine ⟨fun e s => refine_increments e s, ?_, ?_, ?_, ?_⟩
  · rw [hbr]
  · rw [hbr]
  · simp [Summary.refineLlmCalls, h1, hc2, hc3, hc4]
  · rw [hbr]
    simp [Summary.post_refine, errSet, herr,
      show containsStr Summary.cantFindMsg "not related to the document content" = false
        from by decide]

/-- Witness for C3 at concrete states with counters 0, 1, 2, 3. -/
theorem refine_fourth_entry_falls_back_witness :
    (c3s 0).refine_count = 0 ∧ (c3s 3).error = none ∧
    (Summary.refine tEnv (c3s 3)).answer = some Summary.cantFindMsg ∧
    Summary.post_refine (Summary.refine tEnv (c3s 3)) = some "translate" := by
  have h := refine_fourth_entry_falls_back tEnv (c3s 0) (c3s 1) (c3s 2) (c3s 3)
    (by decide) (by decide) (by decide) (by decide) (by decide)
  exact ⟨by decide, by decide, h.2.1, h.2.2.2.2⟩

/-- C4 (amended): in `grade`, an empty (or `None`) retrieval list sets
`error = "No relevant chunks"` and leaves the answer unchanged; `post_grade`
then routes to `"finish"`, unless the answer already held the fixed fallback
message on entry (reachable, e.g. when `generate` produced exactly that
text), in which case its fallback check fires first and it routes to
`"translate"`.  A nonempty retrieval in which every candidate is graded
without a `"yes"` sets the fixed fallback answer, logs one `"grade: …"`
entry per candidate (no `"generate"` entry), and `post_grade` routes to
`"translate"`.  In both cases `generate` is bypassed. -/
theorem grade_empty_vs_all_no :
    (∀ (env : SummaryEnv) (st : SummaryState),
      optListEmpty st.retrieved = true →
      (Summary.grade env st).error = some "No relevant chunks" ∧
      (Summary.grade env st).answer = st.answer ∧
      Summary.post_grade (Summary.grade env st) =
        (if st.answer = some Summary.cantFindMsg then "translate" else "finish")) ∧
    (∀ (env : SummaryEnv) (st : SummaryState) (l : List String),
      st.retrieved = some l → l ≠ [] →
      (∀ c ∈ l, containsStr (pyLower (env.gradeLlm st.query st.summary c)) "yes" = false) →
      (Summary.grade env st).answer = some Summary.cantFindMsg ∧
      (Summary.grade env st).log =
        st.log ++ l.map (fun c => "grade: " ++ env.gradeLlm st.query st.summary c) ∧
      Summary.post_grade (Summary.grade env st) = "translate") := by
  constructor
  · intro env st hemp
    have hg : Summary.grade env st = {st with error := some "No relevant chunks"} := by
      unfold Summary.grade
      rw [if_pos hemp]
    rw [hg]
    refine ⟨rfl, rfl, ?_⟩
    simp only [Summary.post_grade]
    split
    · rfl
    · simp [errSet]
  · intro env st l hret hne hno
    have hemp : optListEmpty st.retrieved = false := by
      rw [hret]
      simpa [optListEmpty] using hne
    have hfil : l.filter
        (fun c => containsStr (pyLower (env.gradeLlm st.query st.summary c)) "yes") = [] := by
      rw [List.filter_eq_nil_iff]
      intro c hc
      simp [hno c hc]
    have hg : Summary.grade env st =
        {st with
          log := st.log ++ l.map (fun c => "grade: " ++ env.gradeLlm st.query st.summary c),
          answer := some Summary.cantFindMsg} := by
      unfold Summary.grade
      rw [if_neg (by simp [hemp]), hret]
      dsimp only [Option.getD]
      rw [hfil]
      rfl
    rw [hg]
    exact ⟨rfl, rfl, by simp [Summary.post_grade]⟩

/-- Witness for the amended C4 at concrete states (empty retrieval, and one
candidate graded `"no"` by `tEnv`). -/
theorem grade_empty_vs_all_no_witness :
    optListEmpty c4StEmpty.retrieved = true ∧
    (Summary.grade tEnv c4StEmpty).error = some "No relevant chunks" ∧
    Summary.post_grade (Summary.grade tEnv c4StEmpty) = "finish" ∧
    (Summary.grade tEnv c4StNo).answer = some Summary.cantFindMsg ∧
    Summary.post_grade (Summary.grade tEnv c4StNo) = "translate" := by
  have ha := (grade_empty_vs_all_no.1 tEnv c4StEmpty (by decide))
  have hb := (grade_empty_vs_all_no.2 tEnv c4StNo ["c"] (by decide) (by decide) (by decide))
  exact ⟨by decide, ha.1, by rw [ha.2.2]; rfl, hb.1, hb.2.2⟩

/-- C4 counterexample: with an empty retrieval list the code does *not* set
the fallback answer and the router goes to `"finish"`, not `"translate"` —
the claim's empty-retrieval half fails on the code. -/
theorem grade_empty_counterexample :
    (Summary.grade tEnv c4StEmpty).answer ≠ some Summary.cantFindMsg ∧
    Summary.post_grade (Summary.grade tEnv c4StEmpty) = "finish" ∧
    Summary.post_grade (Summary.grade tEnv c4StEmpty) ≠ "translate" := by decide

/-- C5 (amended): wrap a step that fails on attempts 1–2 (without mutating
the state) and succeeds on attempt 3 with a log- and error-preserving effect.
The Chat wrapper logs *before every attempt* and so returns with exactly the
three entries `"<name>:1"`, `"<name>:2"`, `"<name>:3"` appended and `error`
unset; the Summary wrapper logs only *after a successful attempt* and so
returns with exactly one entry `"<name> attempt 3 [..ms]"` appended and
`error` unset. -/
theorem retry_logging_on_success_after_failures :
    (∀ (name : String) (st : ChatState) (e1 e2 : String) (upd : ChatState → ChatState)
       (fn : Nat → ChatState → ChatState × Option String),
      (∀ s, fn 1 s = (s, some e1)) →
      (∀ s, fn 2 s = (s, some e2)) →
      (∀ s, fn 3 s = (upd s, none)) →
      (∀ s, (upd s).log = s.log) →
      (∀ s, (upd s).error = s.error) →
      st.error = none →
      (safe_retry_chat name fn st).log =
        st.log ++ [name ++ ":" ++ "1", name ++ ":" ++ "2", name ++ ":" ++ "3"] ∧
      (safe_retry_chat name fn st).error = none) ∧
    (∀ (name : String) (elapsed : Nat → Nat) (st : SummaryState) (e1 e2 : String)
       (upd : SummaryState → SummaryState)
       (fn : Nat → SummaryState → SummaryState × Option String),
      (∀ s, fn 1 s = (s, some e1)) →
      (∀ s, fn 2 s = (s, some e2)) →
      (∀ s, fn 3 s = (upd s, none)) →
      (∀ s, (upd s).log = s.log) →
      (∀ s, (upd s).error = s.error) →
      st.error = none →
      (safe_retry_summary name elapsed fn st).log =
        st.log ++ [name ++ " attempt " ++ "3" ++ " [" ++ toString (elapsed 3) ++ "ms]"] ∧
      (safe_retry_summary name elapsed fn st).error = none) := by
  constructor
  · intro name st e1 e2 upd fn hf1 hf2 hf3 hlog herr hst
    simp [safe_retry_chat, safeRetryChatGo, hf1, hf2, hf3, hlog, herr, hst,
      show toString (1 : Nat) = "1" from rfl,
      show toString (2 : Nat) = "2" from rfl,
      show toString (3 : Nat) = "3" from rfl]
  · intro name elapsed st e1 e2 upd fn hf1 hf2 hf3 hlog herr hst
    simp [safe_retry_summary, safeRetrySummaryGo, hf1, hf2, hf3, hlog, herr, hst,
      show toString (3 : Nat) = "3" from rfl]

/-- Witness for the amended C5 at a concrete step behaviour. -/
theorem retry_logging_on_success_after_failures_witness :
    plainC.error = none ∧
    (safe_retry_chat "answer" failTwiceC plainC).log =
      ["answer:1", "answer:2", "answer:3"] ∧
    (safe_retry_chat "answer" failTwiceC plainC).error = none ∧
    (safe_retry_summary "grade" (fun _ => 0) failTwiceS plainS).log =
      ["grade attempt 3 [0ms]"] ∧
    (safe_retry_summary "grade" (fun _ => 0) failTwiceS plainS).error = none := by
  have hc := retry_logging_on_success_after_failures.1 "answer" plainC "boom" "boom" id
    failTwiceC (fun s => rfl) (fun s => rfl) (fun s => rfl) (fun s => rfl) (fun s => rfl) rfl
  have hs := retry_logging_on_success_after_failures.2 "grade" (fun _ => 0) plainS
    "boom" "boom" id failTwiceS
    (fun s => rfl) (fun s => rfl) (fun s => rfl) (fun s => rfl) (fun s => rfl) rfl
  refine ⟨rfl, ?_, hc.2, ?_, hs.2⟩
  · rw [hc.1]
    rfl
  · rw [hs.1]
    rfl

/-- C5 counterexample: under the Summary wrapper, failing attempts append no
log entry at all, so the 1-2-fail / 3-success scenario leaves exactly one log
entry for the step, not three. -/
theorem retry_logging_counterexample :
    (safe_retry_summary "grade" (fun _ => 0) failTwiceS plainS).log =
      ["grade attempt 3 [0ms]"] ∧
    ((safe_retry_summary "grade" (fun _ => 0) failTwiceS plainS).log.filter
      (fun s => containsStr s "grade")).length = 1 ∧
    ((safe_retry_summary "grade" (fun _ => 0) failTwiceS plainS).log.filter
      (fun s => containsStr s "grade")).length ≠ 3 := by decide

/-- C6 (amended): when all 3 attempts raise (without mutating the state), both
wrappers return the state rather than propagating the exception, and do not
apply the step's effect.  The Summary wrapper sets
`error = "<name> failed after 3 tries: <cause>"` (containing the step name
and the attempt count) and appends nothing to the log; the Chat wrapper sets
`error = "<name> failed: <cause>"` — step name but *no* attempt count — after
appending its three per-attempt log entries. -/
theorem retry_all_attempts_fail :
    (∀ (name : String) (st : ChatState) (e1 e2 e3 : String)
       (fn : Nat → ChatState → ChatState × Option String),
      (∀ s, fn 1 s = (s, some e1)) →
      (∀ s, fn 2 s = (s, some e2)) →
      (∀ s, fn 3 s = (s, some e3)) →
      safe_retry_chat name fn st =
        {st with log := st.log ++ [name ++ ":" ++ "1", name ++ ":" ++ "2", name ++ ":" ++ "3"],
                 error := some (name ++ " failed: " ++ e3)}) ∧
    (∀ (name : String) (elapsed : Nat → Nat) (st : SummaryState) (e1 e2 e3 : String)
       (fn : Nat → SummaryState → SummaryState × Option String),
      (∀ s, fn 1 s = (s, some e1)) →
      (∀ s, fn 2 s = (s, some e2)) →
      (∀ s, fn 3 s = (s, some e3)) →
      safe_retry_summary name elapsed fn st =
        {st with error := some (name ++ " failed after 3 tries: " ++ e3)}) := by
  constructor
  · intro name st e1 e2 e3 fn hf1 hf2 hf3
    simp [safe_retry_chat, safeRetryChatGo, hf1, hf2, hf3,
      show toString (1 : Nat) = "1" from rfl,
      show toString (2 : Nat) = "2" from rfl,
      show toString (3 : Nat) = "3" from rfl]
  · intro name elapsed st e1 e2 e3 fn hf1 hf2 hf3
    simp [safe_retry_summary, safeRetrySummaryGo, hf1, hf2, hf3]

/-- Witness for the amended C6 at a concrete always-failing step. -/
theorem retry_all_attempts_fail_witness :
    safe_retry_summary "grade" (fun _ => 0) failAlwaysS plainS =
      {plainS with error := some "grade failed after 3 tries: boom"} ∧
    containsStr "grade failed after 3 tries: boom" "grade" = true ∧
    containsStr "grade failed after 3 tries: boom" "failed after 3 tries" = true := by
  have hs := retry_all_attempts_fail.2 "grade" (fun _ => 0) plainS "boom" "boom" "boom"
    failAlwaysS (fun s => rfl) (fun s => rfl) (fun s => rfl)
  exact ⟨hs, by decide, by decide⟩

/-- C6 counterexample: the Chat wrapper's terminal error message is
`"<name> failed: <cause>"`; it contains the step name but no attempt count —
the text `"failed after 3 tries"` (and even the word `"tries"`) does not
occur in it. -/
theorem retry_chat_error_message_counterexample :
    (safe_retry_chat "answer" failAlwaysC plainC).error = some "answer failed: boom" ∧
    containsStr "answer failed: boom" "failed after 3 tries" = false ∧
    containsStr "answer failed: boom" "tries" = false ∧
    containsStr "answer failed: boom" "answer" = true := by decide

/-- C7 (code behaviour at the failing input): a Chat run in which the first
verification answers `false` (so `need_refine` is set and `refine` runs) and
the re-entered verification answers `bad`.  The `bad` branch sets the fixed
apology message but leaves `need_refine = true`, so `post_verify` routes back
to `"refine"` — not to `"translate"` as the claim (and the spec) state. -/
theorem chat_verify_bad_reenters_refine :
    chatNext "entry" c7s1 = some "answer" ∧
    Chat.post_verify c7s3 = "refine" ∧
    Chat.post_refine c7s4 = "verify" ∧
    c7s5.answer = some Chat.badMsg ∧
    c7s5.need_refine = true ∧
    c7s5.error = none ∧
    Chat.post_verify c7s5 = "refine" ∧
    Chat.post_verify c7s5 ≠ "translate" := by decide

/-- C8: whenever the (stripped, uppercased) query equals the sentinel
`"SUMMARY_ALL"`, a Chat run with any sufficient fuel executes exactly
`entry → summarize → translate → finish` — the `answer`, `verify` and
`refine` steps are never executed — and the result body contains the log and
a `summary` field but no `answer` field. -/
theorem chat_sentinel_summarize_only (env : ChatEnv) (f : Nat)
    (messages : List String) (query lang : String)
    (h : pyUpper (pyStrip query) = "SUMMARY_ALL") :
    (chat_run env (f + 4) messages query lang).2 =
      ["entry", "summarize", "translate", "finish"] ∧
    "answer" ∉ (chat_run env (f + 4) messages query lang).2 ∧
    "verify" ∉ (chat_run env (f + 4) messages query lang).2 ∧
    "refine" ∉ (chat_run env (f + 4) messages query lang).2 ∧
    generateResult (chat_run env (f + 4) messages query lang).1 =
      {log := ["summarize:1"],
       summary := some (env.translateLlm lang (some (env.summarizeLlm messages)))} ∧
    (generateResult (chat_run env (f + 4) messages query lang).1).answer = none := by
  have h2 : (pyUpper (pyStrip query) == "SUMMARY_ALL") = true := beq_iff_eq.mpr h
  have hrun : chat_run env (f + 4) messages query lang =
      (({messages := messages, query := query, lang := lang, is_summary := true,
         log := ["summarize:1"],
         summary := some (env.translateLlm lang (some (env.summarizeLlm messages)))} : ChatState),
       ["entry", "summarize", "translate", "finish"]) := by
    unfold chat_run
    rw [show f + 4 = (f + 3) + 1 from rfl]
    simp [chatRun, chatStepRun, chatNext, wrapOk1Chat, Chat.entry, Chat.summarize,
      Chat.translate, h2]
  rw [hrun]
  refine ⟨rfl, by simp, by simp, by simp, ?_, ?_⟩ <;> rfl

/-- Witness for C8 at the spec's end-to-end example
`run(["hello"], "SUMMARY_ALL", "EN")`. -/
theorem chat_sentinel_summarize_only_witness :
    pyUpper (pyStrip "SUMMARY_ALL") = "SUMMARY_ALL" ∧
    (chat_run w8Env (0 + 4) ["hello"] "SUMMARY_ALL" "EN").2 =
      ["entry", "summarize", "translate", "finish"] ∧
    (generateResult (chat_run w8Env (0 + 4) ["hello"] "SUMMARY_ALL" "EN").1).answer = none ∧
    (generateResult (chat_run w8Env (0 + 4) ["hello"] "SUMMARY_ALL" "EN").1).summary = some "T" := by
  have h := chat_sentinel_summarize_only w8Env 0 ["hello"] "SUMMARY_ALL" "EN" (by decide)
  exact ⟨by decide, h.1, h.2.2.2.2.2, by rw [h.2.2.2.2.1]; rfl⟩

/-- C10: in the Summary pipeline's `translate` step, for every state the
translated text is written into `answer` (also when `is_summary` is true);
the `summary` field is left unchanged; and in summarize-all mode the text
handed to the model is the value fetched from the cache via `get_summary`,
not the in-state `summary` field (whose value is irrelevant to the output). -/
theorem translate_writes_answer_only (env : SummaryEnv) (st : SummaryState) :
    (Summary.translate env st).summary = st.summary ∧
    (Summary.translate env st).answer =
      some (env.translateLlm st.lang
        (if st.is_summary then env.getSummary st.file_id else st.answer)) ∧
    (∀ s, (Summary.translate env {st with summary := s}).answer =
      (Summary.translate env st).answer) :=
  ⟨rfl, rfl, fun _ => rfl⟩

end UcwareLlm
